import Mathlib

/-!
Shallow embedding of `src/health-to-pdf.ts`: the CLI argument parser,
validator and exporter dispatcher of the health-export-to-PDF tool.

The TypeScript `main` is modelled as a pure function of the argument list,
a filesystem-existence oracle (`existsSync`) and the three exporter
functions (treated as oracles returning either success or a thrown value).
JavaScript truthiness on the optional string fields (`!options.input`,
`!options.type`, `!options.output`) is modelled by `isFalsy`, which is
true exactly on `none` (undefined) and `some ""` (the empty string).
-/

set_option autoImplicit false

namespace HealthToPdf

/-- The partially-built options record mutated by the parse loop
(`Partial<CliOptions>` in the source); `none` models an unset or
`undefined` field. -/
structure RawOptions where
  type : Option String
  input : Option String
  output : Option String
  includeDailyTable : Bool
  help : Bool
  deriving DecidableEq, Repr

/-- The validated configuration passed to dispatch (`CliOptions` after the
cast on line 127 of the source). -/
structure CliOptions where
  type : String
  input : String
  output : String
  includeDailyTable : Bool
  deriving DecidableEq, Repr

/-- JavaScript truthiness test for an optional string field: `!x` is true
when the field is `undefined` or the empty string. -/
def isFalsy : Option String → Bool
  | none => true
  | some s => s == ""

/-- Initial options record of the parse loop: lines 50-53 of the source
(`includeDailyTable: true, help: false`, all other fields unset). -/
def initOptions : RawOptions :=
  { type := none, input := none, output := none,
    includeDailyTable := true, help := false }

/-- The tokens that consume the following token as their value:
`--type`/`-t`, `--input`/`-i`, `--output`/`-o` (switch cases on
lines 59-69 of the source). -/
def isValueFlag (arg : String) : Bool :=
  arg == "--type" || arg == "-t" || arg == "--input" || arg == "-i" ||
    arg == "--output" || arg == "-o"

/-- Field assignment performed by a value-taking flag: `options.type =
args[++i]` and its two siblings.  `v = none` models `args[++i]` reading
past the end of the list (the flag is the final token). -/
def setValueFlag (arg : String) (v : Option String) (o : RawOptions) : RawOptions :=
  if arg == "--type" || arg == "-t" then { o with type := v }
  else if arg == "--input" || arg == "-i" then { o with input := v }
  else { o with output := v }

/-- JavaScript `arg.startsWith('--')`: the first two characters of the
token are both dashes. -/
def startsWithDashDash (s : String) : Bool :=
  s.data.take 2 == ['-', '-']

/-- One parse-loop step for a token that does not consume a value:
the `--no-daily-table` and `--help`/`-h` cases and the `default` branch
with its legacy positional fallback (lines 71-85 of the source). -/
def step1 (arg : String) (o : RawOptions) : RawOptions :=
  if arg == "--no-daily-table" then { o with includeDailyTable := false }
  else if arg == "--help" || arg == "-h" then { o with help := true }
  else if isFalsy o.input && !(startsWithDashDash arg) then { o with input := some arg }
  else if isFalsy o.output && !(startsWithDashDash arg) then { o with output := some arg }
  else o

/-- The argument parse loop (lines 55-86 of the source).  A value-taking
flag consumes the next token via `args[++i]`; when it is the final token
the field is assigned `undefined` (`none`). -/
def parseLoop : List String → RawOptions → RawOptions
  | [], o => o
  | [arg], o => if isValueFlag arg then setValueFlag arg none o else step1 arg o
  | arg :: v :: rest, o =>
    if isValueFlag arg then parseLoop rest (setValueFlag arg (some v) o)
    else parseLoop (v :: rest) (step1 arg o)

/-- The initial help scan on line 44 of the source: empty argument list or
a `--help`/`-h` token anywhere short-circuits to usage + exit 0. -/
def helpShortCircuit (args : List String) : Bool :=
  args.isEmpty || args.contains "--help" || args.contains "-h"

/-- The `typeNames` default-output table (lines 119-123 of the source);
`none` on any other string models the undefined keyed lookup. -/
def typeNames : String → Option String
  | "heart" => some "herzfrequenz-bericht.pdf"
  | "sleep" => some "schlaf-bericht.pdf"
  | "medication" => some "medikation-bericht.pdf"
  | _ => none

/-- The valid `--type` values checked on line 106 of the source. -/
def validTypes : List String := ["heart", "sleep", "medication"]

/-- Reason a validation step exits with code 1 (lines 94-115). -/
inductive ExitReason where
  | inputRequired
  | typeRequired
  | typeInvalid
  | inputNotFound
  deriving DecidableEq, Repr

/-- Outcome of `main` up to (and excluding) the exporter call:
help exit from the initial scan, help exit from the post-loop check
(lines 88-91), a validation exit with code 1, or dispatch of a validated
configuration. -/
inductive MainOutcome where
  | helpExit
  | postLoopHelpExit
  | usageError (r : ExitReason)
  | dispatch (c : CliOptions)
  deriving DecidableEq, Repr

/-- The validated configuration built from the parsed options at the cast
on line 127, with the default output filename of lines 118-125 applied
when `!options.output`. -/
def buildConfig (o : RawOptions) : CliOptions :=
  { type := o.type.getD "",
    input := o.input.getD "",
    output :=
      if isFalsy o.output then (typeNames (o.type.getD "")).getD ""
      else o.output.getD "",
    includeDailyTable := o.includeDailyTable }

/-- The post-loop help check, validation and default-output selection
applied to the parsed options record (lines 88-127 of the source).  The
checks appear in source order: help, `!options.input`, `!options.type`,
the valid-type membership test, the `existsSync` probe, then dispatch. -/
def validateAndBuild (fsExists : String → Bool) (o : RawOptions) : MainOutcome :=
  if o.help then .postLoopHelpExit
  else if isFalsy o.input then .usageError .inputRequired
  else if isFalsy o.type then .usageError .typeRequired
  else if !(validTypes.contains (o.type.getD "")) then .usageError .typeInvalid
  else if !(fsExists (o.input.getD "")) then .usageError .inputNotFound
  else .dispatch (buildConfig o)

/-- Function `main` from the start through validation and default-output
selection (lines 44-127 of the source), as a function of the `existsSync`
oracle. -/
def mainOutcome (fsExists : String → Bool) (args : List String) : MainOutcome :=
  if helpShortCircuit args then .helpExit
  else validateAndBuild fsExists (parseLoop args initOptions)

/-- A value thrown by an exporter: either a structured `Error` carrying a
message, or an arbitrary raw value (modelled by its string form). -/
inductive ThrownValue where
  | errorObj (message : String)
  | rawValue (s : String)
  deriving DecidableEq, Repr

/-- Result of one awaited exporter call: resolve, or throw a value. -/
inductive ExporterResult where
  | ok
  | threw (v : ThrownValue)
  deriving DecidableEq, Repr

/-- An exporter oracle: `(inputPath, outputPath, includeDailyTable)` to a
result. -/
abbrev Exporter := String → String → Bool → ExporterResult

/-- Message extraction at the catch boundary (line 155 of the source):
`error instanceof Error ? error.message : error`. -/
def errorMessageOf : ThrownValue → String
  | .errorObj m => m
  | .rawValue s => s

/-- The error line printed by the top-level catch (line 155). -/
def errorLine (v : ThrownValue) : String :=
  "❌ Error: " ++ errorMessageOf v

/-- Result of the dispatch stage: success (exit 0, success banner with the
output path) or failure (the printed error line, exit 1). -/
inductive DispatchResult where
  | success (output : String)
  | failure (printed : String)
  deriving DecidableEq, Repr

/-- Trace of the dispatch stage: the exporter invocations performed
(type, input, output, includeDailyTable) and the final result. -/
structure DispatchTrace where
  calls : List (String × String × String × Bool)
  result : DispatchResult
  deriving DecidableEq, Repr

/-- The `switch (config.type)` selecting the exporter (lines 139-149);
`none` models the no-matching-case fall-through. -/
def selectExporter (hx sx mx : Exporter) (t : String) : Option Exporter :=
  if t == "heart" then some hx
  else if t == "sleep" then some sx
  else if t == "medication" then some mx
  else none

/-- The try/catch dispatch block (lines 138-157): invoke the selected
exporter exactly once; on a thrown value print the error line and exit 1,
otherwise print the success banner. -/
def runDispatch (hx sx mx : Exporter) (c : CliOptions) : DispatchTrace :=
  match selectExporter hx sx mx c.type with
  | none => { calls := [], result := .success c.output }
  | some f =>
    { calls := [(c.type, c.input, c.output, c.includeDailyTable)],
      result :=
        match f c.input c.output c.includeDailyTable with
        | .ok => .success c.output
        | .threw v => .failure (errorLine v) }

/-- Whether a given validation failure also reprints the usage text
(lines 96 and 102 do, lines 106-115 do not). -/
def usagePrintedFor : ExitReason → Bool
  | .inputRequired => true
  | .typeRequired => true
  | .typeInvalid => false
  | .inputNotFound => false

/-- Observable result of a whole process run: exit code, whether the usage
text was printed, and the exporter invocations performed. -/
structure RunResult where
  exitCode : Nat
  usagePrinted : Bool
  calls : List (String × String × String × Bool)
  deriving DecidableEq, Repr

/-- The whole `main`, composing parse/validate with dispatch. -/
def run (fsExists : String → Bool) (hx sx mx : Exporter)
    (args : List String) : RunResult :=
  match mainOutcome fsExists args with
  | .helpExit => { exitCode := 0, usagePrinted := true, calls := [] }
  | .postLoopHelpExit => { exitCode := 0, usagePrinted := true, calls := [] }
  | .usageError r => { exitCode := 1, usagePrinted := usagePrintedFor r, calls := [] }
  | .dispatch c =>
    let d := runDispatch hx sx mx c
    match d.result with
    | .success _ => { exitCode := 0, usagePrinted := false, calls := d.calls }
    | .failure _ => { exitCode := 1, usagePrinted := false, calls := d.calls }

/-- A filesystem oracle on which every path exists, for concrete runs. -/
def fsAll : String → Bool := fun _ => true

/-- An exporter oracle that always succeeds, for concrete runs. -/
def okExporter : Exporter := fun _ _ _ => .ok

/-- An exporter oracle that always throws a structured error, for
concrete runs. -/
def boomExporter : Exporter := fun _ _ _ => .threw (.errorObj "boom")

/-- Tokens the parse loop processes as a `--no-daily-table` flag: mirrors
which list positions reach that switch case (a token consumed as the value
of a preceding value-taking flag never does). -/
def seesNoDailyTable : List String → Bool
  | [] => false
  | [a] => a == "--no-daily-table"
  | a :: v :: rest =>
    if isValueFlag a then seesNoDailyTable rest
    else (a == "--no-daily-table") || seesNoDailyTable (v :: rest)

lemma isFalsy_eq_false {x : Option String} (h : isFalsy x = false) :
    x = some (x.getD "") ∧ x.getD "" ≠ "" := by
  cases x with
  | none => simp [isFalsy] at h
  | some s =>
    simp only [isFalsy, beq_eq_false_iff_ne, ne_eq] at h
    simp [h]

lemma setValueFlag_includeDailyTable (arg : String) (v : Option String) (o : RawOptions) :
    (setValueFlag arg v o).includeDailyTable = o.includeDailyTable := by
  unfold setValueFlag
  split <;> try split
  all_goals rfl

lemma setValueFlag_help (arg : String) (v : Option String) (o : RawOptions) :
    (setValueFlag arg v o).help = o.help := by
  unfold setValueFlag
  split <;> try split
  all_goals rfl

lemma step1_includeDailyTable (arg : String) (o : RawOptions) :
    (step1 arg o).includeDailyTable =
      (o.includeDailyTable && !(arg == "--no-daily-table")) := by
  unfold step1
  by_cases h : (arg == "--no-daily-table") = true
  · simp [h]
  · simp only [Bool.not_eq_true] at h
    rw [if_neg (by simp [h]), h, Bool.not_false, Bool.and_true]
    repeat' split
    all_goals rfl

lemma step1_help {arg : String} (o : RawOptions)
    (h1 : arg ≠ "--help") (h2 : arg ≠ "-h") : (step1 arg o).help = o.help := by
  unfold step1
  split
  · rfl
  · split
    · rename_i hor
      simp only [Bool.or_eq_true, beq_iff_eq] at hor
      rcases hor with h | h
      · exact absurd h h1
      · exact absurd h h2
    · split <;> try split
      all_goals rfl

lemma isValueFlag_ne_ndt {arg : String} (h : isValueFlag arg = true) :
    (arg == "--no-daily-table") = false := by
  simp only [isValueFlag, Bool.or_eq_true, beq_iff_eq] at h
  rcases h with ((((h | h) | h) | h) | h) | h <;> simp [h]

lemma parseLoop_includeDailyTable (l : List String) (o : RawOptions) :
    (parseLoop l o).includeDailyTable =
      (o.includeDailyTable && !(seesNoDailyTable l)) := by
  induction l, o using parseLoop.induct with
  | case1 o => simp [parseLoop, seesNoDailyTable]
  | case2 arg o h =>
    simp [parseLoop, seesNoDailyTable, h, setValueFlag_includeDailyTable,
      isValueFlag_ne_ndt h]
  | case3 arg o h =>
    simp [parseLoop, seesNoDailyTable, h, step1_includeDailyTable]
  | case4 arg v rest o h ih =>
    simp [parseLoop, seesNoDailyTable, h, setValueFlag_includeDailyTable, ih]
  | case5 arg v rest o h ih =>
    simp only [parseLoop, seesNoDailyTable]
    rw [if_neg h, if_neg h, ih, step1_includeDailyTable, Bool.not_or,
      Bool.and_assoc]

lemma parseLoop_help {l : List String} (o : RawOptions)
    (h1 : "--help" ∉ l) (h2 : "-h" ∉ l) : (parseLoop l o).help = o.help := by
  induction l, o using parseLoop.induct with
  | case1 o => rfl
  | case2 arg o h =>
    simp [parseLoop, h, setValueFlag_help]
  | case3 arg o h =>
    simp only [List.mem_singleton] at h1 h2
    simp [parseLoop, h, step1_help o (Ne.symm h1) (Ne.symm h2)]
  | case4 arg v rest o h ih =>
    simp only [List.mem_cons, not_or] at h1 h2
    simp only [parseLoop]
    rw [if_pos h, ih (by simpa using h1.2.2) (by simpa using h2.2.2),
      setValueFlag_help]
  | case5 arg v rest o h ih =>
    simp only [List.mem_cons, not_or] at h1 h2
    simp only [parseLoop]
    rw [if_neg h,
      ih (by simp only [List.mem_cons, not_or]; exact ⟨h1.2.1, h1.2.2⟩)
        (by simp only [List.mem_cons, not_or]; exact ⟨h2.2.1, h2.2.2⟩),
      step1_help o (Ne.symm h1.1) (Ne.symm h2.1)]

lemma helpShortCircuit_eq_false {args : List String} (h : helpShortCircuit args = false) :
    args ≠ [] ∧ "--help" ∉ args ∧ "-h" ∉ args := by
  simp only [helpShortCircuit, Bool.or_eq_false_iff] at h
  exact ⟨by simpa using h.1.1, by simpa using h.1.2, by simpa using h.2⟩

lemma buildConfig_type (o : RawOptions) : (buildConfig o).type = o.type.getD "" := rfl

lemma buildConfig_input (o : RawOptions) : (buildConfig o).input = o.input.getD "" := rfl

lemma buildConfig_output (o : RawOptions) :
    (buildConfig o).output =
      if isFalsy o.output then (typeNames (o.type.getD "")).getD ""
      else o.output.getD "" := rfl

lemma buildConfig_includeDailyTable (o : RawOptions) :
    (buildConfig o).includeDailyTable = o.includeDailyTable := rfl

lemma validateAndBuild_dispatch {fsExists : String → Bool} {o : RawOptions}
    {c : CliOptions} (h : validateAndBuild fsExists o = .dispatch c) :
    o.help = false ∧ isFalsy o.input = false ∧ isFalsy o.type = false ∧
      (o.type.getD "") ∈ validTypes ∧ fsExists (o.input.getD "") = true ∧
      c = buildConfig o := by
  unfold validateAndBuild at h
  split at h
  · exact absurd h (by simp)
  rename_i hh
  split at h
  · exact absurd h (by simp)
  rename_i hinp
  split at h
  · exact absurd h (by simp)
  rename_i htyp
  split at h
  · exact absurd h (by simp)
  rename_i hvalid
  split at h
  · exact absurd h (by simp)
  rename_i hfs
  injection h with hc
  refine ⟨by simpa using hh, by simpa using hinp, by simpa using htyp,
    ?_, by simpa using hfs, hc.symm⟩
  have : validTypes.contains (o.type.getD "") = true := by simpa using hvalid
  simpa using this

lemma mainOutcome_dispatch {fsExists : String → Bool} {args : List String}
    {c : CliOptions} (h : mainOutcome fsExists args = .dispatch c) :
    helpShortCircuit args = false ∧
      validateAndBuild fsExists (parseLoop args initOptions) = .dispatch c := by
  unfold mainOutcome at h
  split at h
  · exact absurd h (by simp)
  · rename_i hb
    exact ⟨by simpa using hb, h⟩

lemma validateAndBuild_ne_helpExit (fsExists : String → Bool) (o : RawOptions) :
    validateAndBuild fsExists o ≠ .helpExit := by
  unfold validateAndBuild
  repeat' split
  all_goals simp

lemma validateAndBuild_ne_postLoopHelp {o : RawOptions} (fsExists : String → Bool)
    (hh : o.help = false) :
    validateAndBuild fsExists o ≠ .postLoopHelpExit := by
  unfold validateAndBuild
  rw [if_neg (by simp [hh])]
  repeat' split
  all_goals simp

lemma validateAndBuild_inputRequired {o : RawOptions} (fsExists : String → Bool)
    (hh : o.help = false) (hi : isFalsy o.input = true) :
    validateAndBuild fsExists o = .usageError .inputRequired := by
  unfold validateAndBuild
  rw [if_neg (by simp [hh]), if_pos hi]

lemma validateAndBuild_typeRequired {o : RawOptions} (fsExists : String → Bool)
    (hh : o.help = false) (hi : isFalsy o.input = false)
    (ht : isFalsy o.type = true) :
    validateAndBuild fsExists o = .usageError .typeRequired := by
  unfold validateAndBuild
  rw [if_neg (by simp [hh]), if_neg (by simp [hi]), if_pos ht]

lemma mem_validTypes_iff {t : String} :
    t ∈ validTypes ↔ t = "heart" ∨ t = "sleep" ∨ t = "medication" := by
  simp [validTypes]

/-- C1: for every argument list that passes validation (the run reaches
dispatch), the configuration has a `type` among the three literals, a
non-empty `input` on which the filesystem existence probe returned true,
and a non-empty `output` that is either the user-supplied value or the
type-specific default. -/
theorem c1_validated_config_invariant (fsExists : String → Bool)
    (args : List String) (c : CliOptions)
    (h : mainOutcome fsExists args = .dispatch c) :
    c.type ∈ validTypes ∧ c.input ≠ "" ∧ fsExists c.input = true ∧
      c.output ≠ "" ∧
      ((parseLoop args initOptions).output = some c.output ∨
        typeNames c.type = some c.output) := by
  obtain ⟨-, hd⟩ := mainOutcome_dispatch h
  obtain ⟨-, hinp, -, hmem, hfs, hc⟩ := validateAndBuild_dispatch hd
  subst hc
  rw [buildConfig_type, buildConfig_input, buildConfig_output]
  refine ⟨hmem, (isFalsy_eq_false hinp).2, hfs, ?_, ?_⟩
  · by_cases hout : isFalsy (parseLoop args initOptions).output = true
    · rw [if_pos hout]
      rcases mem_validTypes_iff.mp hmem with ht | ht | ht <;> rw [ht] <;> decide
    · have hf : isFalsy (parseLoop args initOptions).output = false := by
        simpa using hout
      rw [if_neg (by simp [hf])]
      exact (isFalsy_eq_false hf).2
  · by_cases hout : isFalsy (parseLoop args initOptions).output = true
    · right
      rw [if_pos hout]
      rcases mem_validTypes_iff.mp hmem with ht | ht | ht <;> rw [ht] <;> rfl
    · left
      have hf : isFalsy (parseLoop args initOptions).output = false := by
        simpa using hout
      rw [if_neg (by simp [hf])]
      exact (isFalsy_eq_false hf).1

theorem c1_witness :
    "heart" ∈ validTypes ∧ "export.xml" ≠ "" ∧ fsAll "export.xml" = true ∧
      "herzfrequenz-bericht.pdf" ≠ "" ∧
      ((parseLoop ["--type", "heart", "--input", "export.xml"] initOptions).output =
          some "herzfrequenz-bericht.pdf" ∨
        typeNames "heart" = some "herzfrequenz-bericht.pdf") :=
  c1_validated_config_invariant fsAll ["--type", "heart", "--input", "export.xml"]
    { type := "heart", input := "export.xml",
      output := "herzfrequenz-bericht.pdf", includeDailyTable := true }
    (by decide)

/-- C2: every argument list that is empty or contains `--help` or `-h`
anywhere makes the program print usage and exit with code 0 before any
validation (the outcome is independent of the filesystem oracle and of the
exporters, and no exporter is invoked). -/
theorem c2_help_flag_short_circuits (fsExists : String → Bool)
    (hx sx mx : Exporter) (args : List String)
    (h : args = [] ∨ args.contains "--help" = true ∨ args.contains "-h" = true) :
    mainOutcome fsExists args = .helpExit ∧
      run fsExists hx sx mx args =
        { exitCode := 0, usagePrinted := true, calls := [] } := by
  have hs : helpShortCircuit args = true := by
    rcases h with h | h | h
    · simp [helpShortCircuit, h]
    · have hm : "--help" ∈ args := by simpa using h
      simp [helpShortCircuit, hm]
    · have hm : "-h" ∈ args := by simpa using h
      simp [helpShortCircuit, hm]
  have hm : mainOutcome fsExists args = .helpExit := by
    unfold mainOutcome
    rw [if_pos hs]
  exact ⟨hm, by simp [run, hm]⟩

theorem c2_witness :
    mainOutcome fsAll ["--type", "heart", "-h"] = .helpExit ∧
      run fsAll okExporter okExporter okExporter ["--type", "heart", "-h"] =
        { exitCode := 0, usagePrinted := true, calls := [] } :=
  c2_help_flag_short_circuits fsAll okExporter okExporter okExporter
    ["--type", "heart", "-h"] (Or.inr (Or.inr (by decide)))

/-- C9: a token starting with `--` that is none of the five recognized
long flags is silently skipped by the parse loop: no field of the options
record changes and parsing continues as if the token were absent. -/
theorem c9_unknown_long_flag_skipped (o : RawOptions) (a : String)
    (rest : List String) (h1 : startsWithDashDash a = true)
    (h2 : a ∉ ["--type", "--input", "--output", "--no-daily-table", "--help"]) :
    parseLoop (a :: rest) o = parseLoop rest o := by
  simp only [List.mem_cons, List.not_mem_nil, or_false, not_or] at h2
  obtain ⟨n1, n2, n3, n4, n5⟩ := h2
  have ht : a ≠ "-t" := by
    intro heq
    rw [heq] at h1
    exact absurd h1 (by decide)
  have hi : a ≠ "-i" := by
    intro heq
    rw [heq] at h1
    exact absurd h1 (by decide)
  have ho : a ≠ "-o" := by
    intro heq
    rw [heq] at h1
    exact absurd h1 (by decide)
  have hh : a ≠ "-h" := by
    intro heq
    rw [heq] at h1
    exact absurd h1 (by decide)
  have hnv : isValueFlag a = false := by
    simp [isValueFlag, n1, n2, n3, ht, hi, ho]
  have hstep : step1 a o = o := by
    unfold step1
    rw [if_neg (by simp [n4]), if_neg (by simp [n5, hh]),
      if_neg (by simp [h1]), if_neg (by simp [h1])]
  cases rest with
  | nil =>
    simp only [parseLoop]
    rw [if_neg (by simp [hnv]), hstep]
  | cons v rest2 =>
    simp only [parseLoop]
    rw [if_neg (by simp [hnv]), hstep]

theorem c9_witness :
    parseLoop ["--verbose", "--input"] initOptions =
      parseLoop ["--input"] initOptions :=
  c9_unknown_long_flag_skipped initOptions "--verbose" ["--input"]
    (by decide) (by decide)

/-- C10: when the initial help scan does not fire, the parsed `help` field
is false, so the post-loop help branch (usage + exit 0 on lines 88-91) is
unreachable: every help exit happens at the initial scan. -/
theorem c10_post_loop_help_unreachable (fsExists : String → Bool)
    (args : List String) (h : helpShortCircuit args = false) :
    (parseLoop args initOptions).help = false ∧
      mainOutcome fsExists args ≠ .postLoopHelpExit := by
  obtain ⟨-, h1, h2⟩ := helpShortCircuit_eq_false h
  have hp : (parseLoop args initOptions).help = false :=
    (parseLoop_help initOptions h1 h2).trans rfl
  refine ⟨hp, ?_⟩
  unfold mainOutcome
  rw [if_neg (by simp [h])]
  exact validateAndBuild_ne_postLoopHelp fsExists hp

theorem c10_witness :
    (parseLoop ["--type", "heart"] initOptions).help = false ∧
      mainOutcome fsAll ["--type", "heart"] ≠ .postLoopHelpExit :=
  c10_post_loop_help_unreachable fsAll ["--type", "heart"] (by decide)

/-- C4 counterexample: in `["--type", "heart"]` the token `heart` does not
start with `--` and `input` is unset throughout, yet it is consumed as the
value of `--type` and `input` stays unset — refuting the claim that every
token not starting with `--` is treated as the positional `input`. -/
theorem c4_counterexample :
    parseLoop ["--type", "heart"] initOptions =
      { type := some "heart", input := none, output := none,
        includeDailyTable := true, help := false } ∧
      startsWithDashDash "heart" = false := by decide

/-- C4 (amended): a token that reaches the parse loop's `default` case —
one that is not itself a recognized flag token and is not consumed as the
value of an immediately preceding value-taking flag — and does not start
with `--` is assigned to `input` when `input` is unset or empty, otherwise
to `output` when `output` is unset or empty, otherwise dropped. -/
theorem c4_positional_fallback (o : RawOptions) (a : String)
    (rest : List String) (h1 : isValueFlag a = false)
    (h2 : a ≠ "--no-daily-table") (h3 : a ≠ "--help") (h4 : a ≠ "-h")
    (h5 : startsWithDashDash a = false) :
    parseLoop (a :: rest) o =
      parseLoop rest
        (if isFalsy o.input then { o with input := some a }
         else if isFalsy o.output then { o with output := some a }
         else o) := by
  have hstep : step1 a o =
      (if isFalsy o.input then { o with input := some a }
       else if isFalsy o.output then { o with output := some a }
       else o) := by
    unfold step1
    rw [if_neg (by simp [h2]), if_neg (by simp [h3, h4])]
    simp only [h5, Bool.not_false, Bool.and_true]
  cases rest with
  | nil =>
    simp only [parseLoop]
    rw [if_neg (by simp [h1]), hstep]
  | cons v rest2 =>
    simp only [parseLoop]
    rw [if_neg (by simp [h1]), hstep]

theorem c4_witness :
    parseLoop ["export.xml", "out.pdf"] initOptions =
      parseLoop ["out.pdf"]
        (if isFalsy initOptions.input then { initOptions with input := some "export.xml" }
         else if isFalsy initOptions.output then { initOptions with output := some "export.xml" }
         else initOptions) :=
  c4_positional_fallback initOptions "export.xml" ["out.pdf"]
    (by decide) (by decide) (by decide) (by decide) (by decide)

/-- C5: when dispatch is reached with no parsed `output` value, the output
filename is the fixed constant `typeNames` assigns to the type, and the
three per-type constants are pairwise distinct. -/
theorem c5_default_output_per_type (fsExists : String → Bool)
    (args : List String) (c : CliOptions)
    (h : mainOutcome fsExists args = .dispatch c)
    (hout : (parseLoop args initOptions).output = none) :
    typeNames c.type = some c.output ∧
      typeNames "heart" ≠ typeNames "sleep" ∧
      typeNames "heart" ≠ typeNames "medication" ∧
      typeNames "sleep" ≠ typeNames "medication" := by
  obtain ⟨-, hd⟩ := mainOutcome_dispatch h
  obtain ⟨-, -, -, hmem, -, hc⟩ := validateAndBuild_dispatch hd
  subst hc
  refine ⟨?_, by decide, by decide, by decide⟩
  rw [buildConfig_type, buildConfig_output, hout]
  have hf : isFalsy (none : Option String) = true := rfl
  rw [if_pos hf]
  rcases mem_validTypes_iff.mp hmem with ht | ht | ht <;> rw [ht] <;> rfl

theorem c5_witness :
    typeNames "sleep" = some "schlaf-bericht.pdf" ∧
      typeNames "heart" ≠ typeNames "sleep" ∧
      typeNames "heart" ≠ typeNames "medication" ∧
      typeNames "sleep" ≠ typeNames "medication" :=
  c5_default_output_per_type fsAll ["--type", "sleep", "--input", "export.xml"]
    { type := "sleep", input := "export.xml",
      output := "schlaf-bericht.pdf", includeDailyTable := true }
    (by decide) (by decide)

/-- C6 counterexample: in
`["--type", "heart", "--input", "f", "--output", "--no-daily-table"]` the
token `--no-daily-table` is consumed as the value of `--output`, dispatch
is reached, and `includeDailyTable` is still `true` although the token
appears in the argument list — refuting the claimed equivalence. -/
theorem c6_counterexample :
    mainOutcome fsAll
        ["--type", "heart", "--input", "f", "--output", "--no-daily-table"] =
      .dispatch { type := "heart", input := "f",
                  output := "--no-daily-table", includeDailyTable := true } ∧
      List.contains ["--type", "heart", "--input", "f", "--output", "--no-daily-table"]
        "--no-daily-table" = true := by decide

/-- C6 (amended): for every argument list that reaches dispatch,
`includeDailyTable` is false if and only if a `--no-daily-table` token is
processed as a flag by the parse loop (`seesNoDailyTable`), i.e. it
appears at a position where it is not consumed as the value of an
immediately preceding value-taking flag. -/
theorem c6_no_daily_table (fsExists : String → Bool) (args : List String)
    (c : CliOptions) (h : mainOutcome fsExists args = .dispatch c) :
    (c.includeDailyTable = false ↔ seesNoDailyTable args = true) := by
  obtain ⟨-, hd⟩ := mainOutcome_dispatch h
  obtain ⟨-, -, -, -, -, hc⟩ := validateAndBuild_dispatch hd
  subst hc
  rw [buildConfig_includeDailyTable, parseLoop_includeDailyTable]
  cases hb : seesNoDailyTable args <;> simp [initOptions, hb]

theorem c6_witness :
    ((mainOutcome fsAll ["--type", "heart", "--input", "f", "--no-daily-table"] =
        .dispatch { type := "heart", input := "f",
                    output := "herzfrequenz-bericht.pdf", includeDailyTable := false }) ∧
      (false = false ↔ seesNoDailyTable
        ["--type", "heart", "--input", "f", "--no-daily-table"] = true)) :=
  ⟨by decide,
    c6_no_daily_table fsAll ["--type", "heart", "--input", "f", "--no-daily-table"]
      { type := "heart", input := "f",
        output := "herzfrequenz-bericht.pdf", includeDailyTable := false }
      (by decide)⟩

/-- C3 counterexample: for
`["--type", "bogus", "--input", "export.xml", "--help"]` the parsed type
is `bogus` (set and invalid), yet the process exits with code 0 because
the initial help scan fires first — refuting the claim that every such
list exits with code 1. -/
theorem c3_counterexample :
    (parseLoop ["--type", "bogus", "--input", "export.xml", "--help"]
        initOptions).type = some "bogus" ∧
      "bogus" ∉ validTypes ∧
      (run fsAll okExporter okExporter okExporter
        ["--type", "bogus", "--input", "export.xml", "--help"]).exitCode = 0 := by
  refine ⟨by decide, by decide, by decide⟩

/-- C3 (amended): for every argument list whose parsed type is set but not
one of the three valid literals, no exporter is ever invoked; and if the
list additionally does not trigger the initial help short-circuit, the
process exits with code 1. -/
theorem c3_invalid_type_never_dispatches (fsExists : String → Bool)
    (hx sx mx : Exporter) (args : List String) (t : String)
    (h1 : (parseLoop args initOptions).type = some t)
    (h2 : t ∉ validTypes) :
    (run fsExists hx sx mx args).calls = [] ∧
      (helpShortCircuit args = false →
        (run fsExists hx sx mx args).exitCode = 1) := by
  have hnd : ∀ c : CliOptions, mainOutcome fsExists args ≠ .dispatch c := by
    intro c hc
    obtain ⟨-, hd⟩ := mainOutcome_dispatch hc
    obtain ⟨-, -, -, hmem, -, -⟩ := validateAndBuild_dispatch hd
    rw [h1] at hmem
    exact h2 (by simpa using hmem)
  constructor
  · rcases hm : mainOutcome fsExists args with _ | _ | r | c
    · simp [run, hm]
    · simp [run, hm]
    · simp [run, hm]
    · exact absurd hm (hnd c)
  · intro hsc
    obtain ⟨-, hh1, hh2⟩ := helpShortCircuit_eq_false hsc
    have hp : (parseLoop args initOptions).help = false :=
      (parseLoop_help initOptions hh1 hh2).trans rfl
    have hm2 : mainOutcome fsExists args =
        validateAndBuild fsExists (parseLoop args initOptions) := by
      unfold mainOutcome
      rw [if_neg (by simp [hsc])]
    rcases hm : mainOutcome fsExists args with _ | _ | r | c
    · rw [hm2] at hm
      exact absurd hm (validateAndBuild_ne_helpExit fsExists _)
    · rw [hm2] at hm
      exact absurd hm (validateAndBuild_ne_postLoopHelp fsExists hp)
    · simp [run, hm]
    · exact absurd hm (hnd c)

theorem c3_witness :
    (run fsAll okExporter okExporter okExporter
        ["--type", "bogus", "--input", "export.xml"]).calls = [] ∧
      (helpShortCircuit ["--type", "bogus", "--input", "export.xml"] = false →
        (run fsAll okExporter okExporter okExporter
          ["--type", "bogus", "--input", "export.xml"]).exitCode = 1) :=
  c3_invalid_type_never_dispatches fsAll okExporter okExporter okExporter
    ["--type", "bogus", "--input", "export.xml"] "bogus" (by decide) (by decide)

/-- C7: when the exporter selected by the configuration's type throws a
value, the dispatcher invokes it exactly once (no retry), prints one error
line whose message is the structured error's message or else the raw
value, and exits with code 1. -/
theorem c7_exporter_failure_caught_once (hx sx mx : Exporter)
    (c : CliOptions) (f : Exporter) (v : ThrownValue) (m s : String)
    (h1 : selectExporter hx sx mx c.type = some f)
    (h2 : f c.input c.output c.includeDailyTable = .threw v) :
    runDispatch hx sx mx c =
      { calls := [(c.type, c.input, c.output, c.includeDailyTable)],
        result := .failure (errorLine v) } ∧
      (runDispatch hx sx mx c).calls.length = 1 ∧
      errorLine (ThrownValue.errorObj m) = "❌ Error: " ++ m ∧
      errorLine (ThrownValue.rawValue s) = "❌ Error: " ++ s := by
  have hr : runDispatch hx sx mx c =
      { calls := [(c.type, c.input, c.output, c.includeDailyTable)],
        result := .failure (errorLine v) } := by
    unfold runDispatch
    simp only [h1, h2]
  exact ⟨hr, by rw [hr]; rfl, rfl, rfl⟩

theorem c7_witness :
    runDispatch boomExporter okExporter okExporter
        { type := "heart", input := "in.xml", output := "out.pdf",
          includeDailyTable := true } =
      { calls := [("heart", "in.xml", "out.pdf", true)],
        result := .failure (errorLine (ThrownValue.errorObj "boom")) } ∧
      (runDispatch boomExporter okExporter okExporter
        { type := "heart", input := "in.xml", output := "out.pdf",
          includeDailyTable := true }).calls.length = 1 ∧
      errorLine (ThrownValue.errorObj "oops") = "❌ Error: " ++ "oops" ∧
      errorLine (ThrownValue.rawValue "raw") = "❌ Error: " ++ "raw" :=
  c7_exporter_failure_caught_once boomExporter okExporter okExporter
    { type := "heart", input := "in.xml", output := "out.pdf",
      includeDailyTable := true }
    boomExporter (ThrownValue.errorObj "boom") "oops" "raw" rfl rfl

/-- C8: the token after a value-taking flag is consumed as that flag's
value — parsing continues after it, so it is never itself processed as a
flag or positional token; a value-taking flag that is the final token
assigns `undefined` (`none`) to its field; and validation treats such an
unset `input` or `type` as missing, exiting with code 1 instead of
crashing. -/
theorem c8_value_flag_consumes_next_token (o : RawOptions) (f v : String)
    (rest : List String) (fsExists : String → Bool) (args : List String)
    (hf : isValueFlag f = true) :
    parseLoop (f :: v :: rest) o = parseLoop rest (setValueFlag f (some v) o) ∧
      parseLoop [f] o = setValueFlag f none o ∧
      (helpShortCircuit args = false →
        (parseLoop args initOptions).input = none →
        mainOutcome fsExists args = .usageError .inputRequired) ∧
      (helpShortCircuit args = false →
        isFalsy (parseLoop args initOptions).input = false →
        (parseLoop args initOptions).type = none →
        mainOutcome fsExists args = .usageError .typeRequired) := by
  refine ⟨?_, ?_, ?_, ?_⟩
  · simp only [parseLoop]
    rw [if_pos hf]
  · simp only [parseLoop]
    rw [if_pos hf]
  · intro hsc hin
    obtain ⟨-, hh1, hh2⟩ := helpShortCircuit_eq_false hsc
    have hp : (parseLoop args initOptions).help = false :=
      (parseLoop_help initOptions hh1 hh2).trans rfl
    unfold mainOutcome
    rw [if_neg (by simp [hsc])]
    exact validateAndBuild_inputRequired fsExists hp (by rw [hin]; rfl)
  · intro hsc hin htyp
    obtain ⟨-, hh1, hh2⟩ := helpShortCircuit_eq_false hsc
    have hp : (parseLoop args initOptions).help = false :=
      (parseLoop_help initOptions hh1 hh2).trans rfl
    unfold mainOutcome
    rw [if_neg (by simp [hsc])]
    exact validateAndBuild_typeRequired fsExists hp hin (by rw [htyp]; rfl)

theorem c8_witness :
    parseLoop ["--type", "--input", "rest.xml"] initOptions =
        parseLoop ["rest.xml"] (setValueFlag "--type" (some "--input") initOptions) ∧
      parseLoop ["--type"] initOptions = setValueFlag "--type" none initOptions ∧
      (helpShortCircuit ["--type"] = false →
        (parseLoop ["--type"] initOptions).input = none →
        mainOutcome fsAll ["--type"] = .usageError .inputRequired) ∧
      (helpShortCircuit ["--type"] = false →
        isFalsy (parseLoop ["--type"] initOptions).input = false →
        (parseLoop ["--type"] initOptions).type = none →
        mainOutcome fsAll ["--type"] = .usageError .typeRequired) :=
  c8_value_flag_consumes_next_token initOptions "--type" "--input" ["rest.xml"]
    fsAll ["--type"] (by decide)

end HealthToPdf
